import Mathlib

set_option autoImplicit false

/-
Verification of the authentication-strategy resolution and lazy-client-composition
layer of the azure-devops-mcp server. The embedding follows src/src/index.ts;
collaborator modules that the snapshot does not contain (src/auth.ts,
src/shared/domains.ts, src/useragent.ts, src/org-tenants.ts) are modelled from
the specification and marked as such in their doc comments. Asynchronous,
possibly-failing operations (promises) are embedded as `Except`; the mutable
state a closure reads at invocation time (the token-provider state and the
user-agent composer record) is passed explicitly.
-/

namespace AzureDevOpsMcp

/-- Product-descriptor options passed to the `WebApi` constructor at
src/src/index.ts lines 86-90. -/
structure RequestOptions where
  productName : String
  productVersion : String
  userAgent : String
deriving Repr, DecidableEq

/-- Credential handler produced by the azure-devops-node-api helpers: either a
PAT-style (basic) credential or a bearer credential, carrying the attached token. -/
inductive AuthHandler where
  | personalAccessToken (token : String)
  | bearer (token : String)
deriving Repr, DecidableEq

/-- Library helper: wraps a token as a PAT-style (basic) credential. -/
def getPersonalAccessTokenHandler (accessToken : String) : AuthHandler :=
  AuthHandler.personalAccessToken accessToken

/-- Library helper: wraps a token as a bearer credential. -/
def getBearerHandler (accessToken : String) : AuthHandler :=
  AuthHandler.bearer accessToken

/-- Token attached to a credential handler, whichever scheme it uses. -/
def AuthHandler.token : AuthHandler → String
  | AuthHandler.personalAccessToken t => t
  | AuthHandler.bearer t => t

/-- Transport client as constructed by `new WebApi(orgUrl, authHandler, undefined,
options)` at src/src/index.ts lines 86-90: the base URL, the credential handler
and the product-descriptor options. -/
structure WebApi where
  serverUrl : String
  authHandler : AuthHandler
  options : RequestOptions
deriving Repr, DecidableEq

/-- Modelled from the spec: `UserAgentComposer` (src/useragent.ts is not in the
snapshot). Its state is the fixed product version plus the optional peer client
info learned at handshake; the composed string is a deterministic function of
this record at read time. -/
structure UserAgentComposer where
  productVersion : String
  clientInfo : Option (String × String)
deriving Repr, DecidableEq

/-- Modelled from the spec: the composed user-agent string, combining product
name, product version and, when present, the peer client name/version. -/
def UserAgentComposer.userAgent (c : UserAgentComposer) : String :=
  match c.clientInfo with
  | none => "AzureDevOps.MCP/" ++ c.productVersion
  | some (n, v) => "AzureDevOps.MCP/" ++ c.productVersion ++ " (" ++ n ++ "/" ++ v ++ ")"

/-- Modelled from the spec: the handshake hook records the peer identity; a later
call overwrites rather than appends. -/
def UserAgentComposer.appendMcpClientInfo (c : UserAgentComposer)
    (info : Option (String × String)) : UserAgentComposer :=
  match info with
  | none => c
  | some i => { c with clientInfo := some i }

/-- Shallow embedding of `getAzureDevOpsClient` (src/src/index.ts lines 82-93).
The source returns a thunk that, each time it is invoked, awaits the token
provider, picks the PAT handler exactly when the configured authentication
string is "pat" (bearer otherwise), and constructs a fresh `WebApi` bound to the
organization URL and the composer's current user agent. The thunk is embedded as
a function of the invocation-time world: the token-provider state `s` and the
user-agent composer record, both read at the call. -/
def getAzureDevOpsClient {σ ε : Type} (authentication : String) (url : String)
    (packageVersion : String) (getAzureDevOpsToken : σ → Except ε (String × σ))
    (s : σ) (userAgentComposer : UserAgentComposer) : Except ε (WebApi × σ) :=
  match getAzureDevOpsToken s with
  | Except.error e => Except.error e
  | Except.ok (accessToken, s') =>
    let authHandler := if authentication == "pat" then
        getPersonalAccessTokenHandler accessToken
      else
        getBearerHandler accessToken
    let connection : WebApi :=
      { serverUrl := url
        authHandler := authHandler
        options :=
          { productName := "AzureDevOps.MCP"
            productVersion := packageVersion
            userAgent := userAgentComposer.userAgent } }
    Except.ok (connection, s')

/-- Domain-resolution failure: an unrecognized domain name. -/
inductive DomainsError where
  | UnknownDomain (name : String)
deriving Repr, DecidableEq

/-- Modelled from the spec: the fixed known-domain registry (src/shared/domains.ts
is not in the snapshot); the spec and the CLI help name repositories, builds and
work as example domains. -/
def KNOWN_DOMAINS : List String := ["repositories", "builds", "work"]

/-- A requested name is recognized when it is the exact wildcard token "all" or a
member of the known-domain registry. -/
def isKnownRequest (d : String) : Bool :=
  d == "all" || KNOWN_DOMAINS.contains d

/-- Modelled from the spec: `DomainsManager` resolution (src/shared/domains.ts is
not in the snapshot). The wildcard "all" (exact, case-sensitive) enables the whole
registry; an unrecognized name fails with `UnknownDomain` naming the offending
value and no partial set is produced; duplicates collapse (set semantics). -/
def DomainsManager.resolve (requested : List String) : Except DomainsError (List String) :=
  match requested.find? (fun d => !(isKnownRequest d)) with
  | some bad => Except.error (DomainsError.UnknownDomain bad)
  | none =>
    if requested.contains "all" then Except.ok KNOWN_DOMAINS
    else Except.ok requested.dedup

/-- Default of the domains option (src/src/index.ts line 44): the wildcard. -/
def defaultDomains : List String := ["all"]

/-- Resolution of the domains CLI option: the operator's list when supplied, the
wildcard default otherwise (src/src/index.ts lines 39-45). -/
def resolveDomainsOption (provided : Option (List String)) : List String :=
  match provided with
  | none => defaultDomains
  | some ds => ds

/-- Authentication-layer failures named by the spec's error taxonomy. -/
inductive AuthError where
  | MissingCredential
  | AuthFailed
deriving Repr, DecidableEq

/-- Modelled from the spec: the token-producing strategy the Authenticator Factory
returns; the static variant always resolves to its fixed credential, the others
delegate to interactive, CLI or environment mechanisms. -/
inductive TokenProviderSpec where
  | interactiveFlow (tenant : Option String)
  | azcliFlow (tenant : Option String)
  | envFlow
  | envvarFlow
  | staticToken (credential : String)
deriving Repr, DecidableEq

/-- Modelled from the spec: `createAuthenticator` (src/auth.ts is not in the
snapshot). The `pat` strategy requires a non-empty static credential and fails
fast at construction time with `MissingCredential`; the other four strategies
build their providers from the tenant or the environment. A strategy string
outside the five choices cannot reach this factory (the CLI rejects it), and is
mapped to `AuthFailed`. -/
def createAuthenticator (strategy : String) (tenantId : Option String)
    (patToken : Option String) : Except AuthError TokenProviderSpec :=
  match strategy with
  | "pat" =>
    match patToken with
    | none => Except.error AuthError.MissingCredential
    | some c =>
      if c = "" then Except.error AuthError.MissingCredential
      else Except.ok (TokenProviderSpec.staticToken c)
  | "interactive" => Except.ok (TokenProviderSpec.interactiveFlow tenantId)
  | "azcli" => Except.ok (TokenProviderSpec.azcliFlow tenantId)
  | "env" => Except.ok TokenProviderSpec.envFlow
  | "envvar" => Except.ok TokenProviderSpec.envvarFlow
  | _ => Except.error AuthError.AuthFailed

/-- Embedding of src/src/index.ts line 121:
`const tenantId = (await getOrgTenant(orgName)) ?? argv.tenant;`.
`getOrgTenant` (src/org-tenants.ts is not in the snapshot) is abstracted as a
lookup keyed by the organization name. -/
def resolveTenantId (getOrgTenant : String → Option String) (orgName : String)
    (argvTenant : Option String) : Option String :=
  match getOrgTenant orgName with
  | some t => some t
  | none => argvTenant

/-- Embedding of src/src/index.ts line 77:
`const orgUrl = argv.serverUrl ?? "https://dev.azure.com/" + orgName;`. -/
def orgUrl (serverUrl : Option String) (orgName : String) : String :=
  match serverUrl with
  | some u => u
  | none => "https://dev.azure.com/" ++ orgName

/-- Embedding of `isGitHubCodespaceEnv` (src/src/index.ts lines 21-23):
`process.env.CODESPACES === "true" && !!process.env.CODESPACE_NAME`. An absent or
empty CODESPACE_NAME is falsy. -/
def isGitHubCodespaceEnv (codespaces : Option String) (codespaceName : Option String) : Bool :=
  codespaces == some "true" && !((codespaceName.getD "") == "")

/-- Embedding of src/src/index.ts line 25: the default authentication type is
"azcli" in a GitHub Codespace and "interactive" otherwise. -/
def defaultAuthenticationType (codespaces : Option String) (codespaceName : Option String) : String :=
  if isGitHubCodespaceEnv codespaces codespaceName then "azcli" else "interactive"

/-- The five enumerated strategy names (src/src/index.ts line 50). -/
def authenticationChoices : List String :=
  ["interactive", "azcli", "env", "envvar", "pat"]

/-- Configuration failure raised by the CLI layer for a value outside the
enumerated choices. -/
inductive ConfigError where
  | invalidChoice (value : String)
deriving Repr, DecidableEq

/-- Resolution of the authentication CLI option declared at src/src/index.ts
lines 46-52, with the yargs choices/default semantics: an absent value yields the
environment-dependent default; a supplied value is accepted only when it is among
the five enumerated choices. -/
def resolveAuthenticationOption (provided : Option String) (dflt : String) :
    Except ConfigError String :=
  match provided with
  | none => Except.ok dflt
  | some s =>
    if authenticationChoices.contains s then Except.ok s
    else Except.error (ConfigError.invalidChoice s)

/-- Parsed CLI arguments consumed by startup (src/src/index.ts lines 28-74). -/
structure Argv where
  organization : String
  domains : List String
  authentication : String
  tenant : Option String
  serverUrl : Option String
  patToken : Option String
deriving Repr, DecidableEq

/-- Startup failures: a bad domain list or an authenticator-construction error. -/
inductive StartupError where
  | domainsError (e : DomainsError)
  | authError (e : AuthError)
deriving Repr, DecidableEq

/-- State of a successfully started server: the resolved organization URL, the
enabled-domain set, the resolved tenant, the constructed authenticator, the
domains handed to tool registration, and the connected transport. -/
structure ServerState where
  organizationUrl : String
  enabledDomains : List String
  tenantId : Option String
  authenticator : TokenProviderSpec
  registeredDomains : List String
  connected : Bool
deriving Repr, DecidableEq

/-- Startup sequencing of src/src/index.ts: the `DomainsManager` is constructed
before `main` runs (line 79); `main` resolves the tenant (line 121), constructs
the authenticator (line 123), registers tools for the enabled domains (line 128)
and only then connects the server (line 131). A failure at any step aborts before
the later steps run. -/
def startup (getOrgTenant : String → Option String) (argv : Argv) :
    Except StartupError ServerState :=
  match DomainsManager.resolve argv.domains with
  | Except.error e => Except.error (StartupError.domainsError e)
  | Except.ok enabled =>
    let tenantId := resolveTenantId getOrgTenant argv.organization argv.tenant
    match createAuthenticator argv.authentication tenantId argv.patToken with
    | Except.error e => Except.error (StartupError.authError e)
    | Except.ok auth =>
      Except.ok
        { organizationUrl := orgUrl argv.serverUrl argv.organization
          enabledDomains := enabled
          tenantId := tenantId
          authenticator := auth
          registeredDomains := enabled
          connected := true }

/-- Characterization of a successful factory invocation: when the token provider
yields `t` and moves its state to `s'`, the invocation returns a fresh client
carrying the URL, the scheme chosen by the strategy string, and the composer's
current user agent. -/
theorem getAzureDevOpsClient_ok {σ ε : Type} (authentication url packageVersion : String)
    (p : σ → Except ε (String × σ)) (s s' : σ) (t : String) (uac : UserAgentComposer)
    (h : p s = Except.ok (t, s')) :
    getAzureDevOpsClient authentication url packageVersion p s uac =
      Except.ok
        ({ serverUrl := url
           authHandler :=
             if authentication == "pat" then AuthHandler.personalAccessToken t
             else AuthHandler.bearer t
           options :=
             { productName := "AzureDevOps.MCP"
               productVersion := packageVersion
               userAgent := uac.userAgent } }, s') := by
  unfold getAzureDevOpsClient
  rw [h]
  rfl

/-- Inversion of a successful factory invocation: the client's URL, options and
token are determined by the invocation-time inputs. -/
theorem getAzureDevOpsClient_ok_inv {σ ε : Type} (authentication url packageVersion : String)
    (p : σ → Except ε (String × σ)) (s s' : σ) (uac : UserAgentComposer) (c : WebApi)
    (h : getAzureDevOpsClient authentication url packageVersion p s uac = Except.ok (c, s')) :
    c.serverUrl = url ∧
    c.options = { productName := "AzureDevOps.MCP", productVersion := packageVersion,
                  userAgent := uac.userAgent } ∧
    ∃ t, p s = Except.ok (t, s') ∧ c.authHandler.token = t := by
  unfold getAzureDevOpsClient at h
  cases hp : p s with
  | error e => rw [hp] at h; exact absurd h (by simp)
  | ok pr =>
    obtain ⟨t, s₂⟩ := pr
    rw [hp] at h
    simp only [Except.ok.injEq, Prod.mk.injEq] at h
    obtain ⟨hc, hs⟩ := h
    subst hc hs
    refine ⟨rfl, rfl, t, rfl, ?_⟩
    by_cases hb : authentication == "pat" <;>
      simp [hb, getPersonalAccessTokenHandler, getBearerHandler, AuthHandler.token]

/-- The attached token is the wrapped one, whichever scheme the conditional picks. -/
theorem AuthHandler.token_ite (b : Bool) (t : String) :
    ((if b then AuthHandler.personalAccessToken t else AuthHandler.bearer t) : AuthHandler).token = t := by
  cases b <;> rfl

/-- C1: for every invocation of the client factory, if the configured
authentication strategy is "pat" the obtained token is attached as a PAT-style
(basic) credential, and for each of the other four strategies it is attached as a
bearer credential. -/
theorem c1_attachment_scheme {σ ε : Type} (strategy url packageVersion : String)
    (p : σ → Except ε (String × σ)) (s s' : σ) (t : String) (uac : UserAgentComposer)
    (h : p s = Except.ok (t, s')) :
    (strategy = "pat" →
      ∃ c, getAzureDevOpsClient strategy url packageVersion p s uac = Except.ok (c, s') ∧
        c.authHandler = AuthHandler.personalAccessToken t) ∧
    (strategy ∈ (["interactive", "azcli", "env", "envvar"] : List String) →
      ∃ c, getAzureDevOpsClient strategy url packageVersion p s uac = Except.ok (c, s') ∧
        c.authHandler = AuthHandler.bearer t) := by
  constructor
  · intro hs
    subst hs
    exact ⟨_, getAzureDevOpsClient_ok _ _ _ p s s' t uac h, rfl⟩
  · intro hs
    refine ⟨_, getAzureDevOpsClient_ok _ _ _ p s s' t uac h, ?_⟩
    simp only [List.mem_cons, List.not_mem_nil, or_false] at hs
    rcases hs with rfl | rfl | rfl | rfl <;> rfl

/-- C1 witness: a concrete "pat" invocation attaches a PAT-style credential and a
concrete "azcli" invocation attaches a bearer credential. -/
theorem c1_attachment_scheme_witness :
    (∃ c, getAzureDevOpsClient "pat" "https://dev.azure.com/contoso" "2.4.1"
        (fun (n : Nat) => (Except.ok ("tok", n + 1) : Except String (String × Nat)))
        0 ⟨"2.4.1", none⟩ = Except.ok (c, 1) ∧
      c.authHandler = AuthHandler.personalAccessToken "tok") ∧
    (∃ c, getAzureDevOpsClient "azcli" "https://dev.azure.com/contoso" "2.4.1"
        (fun (n : Nat) => (Except.ok ("tok", n + 1) : Except String (String × Nat)))
        0 ⟨"2.4.1", none⟩ = Except.ok (c, 1) ∧
      c.authHandler = AuthHandler.bearer "tok") :=
  ⟨(c1_attachment_scheme "pat" "https://dev.azure.com/contoso" "2.4.1"
      (fun n => Except.ok ("tok", n + 1)) 0 1 "tok" ⟨"2.4.1", none⟩ rfl).1 rfl,
   (c1_attachment_scheme "azcli" "https://dev.azure.com/contoso" "2.4.1"
      (fun n => Except.ok ("tok", n + 1)) 0 1 "tok" ⟨"2.4.1", none⟩ rfl).2 (by simp)⟩

/-- C2: if the token provider rejects, the factory invocation rejects with the
very same error — not caught, wrapped or retried — and no client is produced. -/
theorem c2_error_propagation {σ ε : Type} (strategy url packageVersion : String)
    (p : σ → Except ε (String × σ)) (s : σ) (uac : UserAgentComposer) (e : ε)
    (h : p s = Except.error e) :
    getAzureDevOpsClient strategy url packageVersion p s uac = Except.error e := by
  unfold getAzureDevOpsClient
  rw [h]

/-- C2 witness: a concrete rejecting provider makes the factory reject with the
same error value. -/
theorem c2_error_propagation_witness :
    getAzureDevOpsClient "interactive" "https://dev.azure.com/contoso" "2.4.1"
      (fun (_ : Unit) => (Except.error "AuthFailed: simulated" : Except String (String × Unit)))
      () ⟨"2.4.1", none⟩ = Except.error "AuthFailed: simulated" :=
  c2_error_propagation "interactive" "https://dev.azure.com/contoso" "2.4.1"
    (fun _ => Except.error "AuthFailed: simulated") () ⟨"2.4.1", none⟩
    "AuthFailed: simulated" rfl

/-- C3: every invocation builds a fresh client: each call runs the token provider
from the state it currently has, and the client carries that call's token, the
resolved organization URL, and the composer's user agent as read at that call —
so two calls bracketing a change of the composer's state observe different
user-agent values. -/
theorem c3_fresh_client_per_call {σ ε : Type} (strategy url packageVersion : String)
    (p : σ → Except ε (String × σ)) (s₁ s₂ s₃ : σ) (t₁ t₂ : String)
    (uac₁ uac₂ : UserAgentComposer)
    (h₁ : p s₁ = Except.ok (t₁, s₂)) (h₂ : p s₂ = Except.ok (t₂, s₃)) :
    ∃ c₁ c₂,
      getAzureDevOpsClient strategy url packageVersion p s₁ uac₁ = Except.ok (c₁, s₂) ∧
      getAzureDevOpsClient strategy url packageVersion p s₂ uac₂ = Except.ok (c₂, s₃) ∧
      c₁.authHandler.token = t₁ ∧ c₂.authHandler.token = t₂ ∧
      c₁.serverUrl = url ∧ c₂.serverUrl = url ∧
      c₁.options.userAgent = uac₁.userAgent ∧ c₂.options.userAgent = uac₂.userAgent ∧
      (uac₁.userAgent ≠ uac₂.userAgent → c₁.options.userAgent ≠ c₂.options.userAgent) := by
  refine ⟨_, _, getAzureDevOpsClient_ok _ _ _ p s₁ s₂ t₁ uac₁ h₁,
    getAzureDevOpsClient_ok _ _ _ p s₂ s₃ t₂ uac₂ h₂,
    AuthHandler.token_ite _ _, AuthHandler.token_ite _ _, rfl, rfl, rfl, rfl, ?_⟩
  intro hne
  exact hne

/-- C3 witness: two concrete successive calls, with the handshake updating the
composer in between, yield clients with the respective tokens and distinct
user-agent strings. -/
theorem c3_fresh_client_per_call_witness :
    ∃ c₁ c₂,
      getAzureDevOpsClient "interactive" "https://dev.azure.com/contoso" "2.4.1"
        (fun (n : Nat) => (Except.ok (Nat.repr n, n + 1) : Except String (String × Nat)))
        0 ⟨"2.4.1", none⟩ = Except.ok (c₁, 1) ∧
      getAzureDevOpsClient "interactive" "https://dev.azure.com/contoso" "2.4.1"
        (fun (n : Nat) => (Except.ok (Nat.repr n, n + 1) : Except String (String × Nat)))
        1 (UserAgentComposer.appendMcpClientInfo ⟨"2.4.1", none⟩ (some ("agent-x", "0.1"))) =
          Except.ok (c₂, 2) ∧
      c₁.authHandler.token = "0" ∧ c₂.authHandler.token = "1" ∧
      c₁.serverUrl = "https://dev.azure.com/contoso" ∧
      c₂.serverUrl = "https://dev.azure.com/contoso" ∧
      c₁.options.userAgent = UserAgentComposer.userAgent ⟨"2.4.1", none⟩ ∧
      c₂.options.userAgent =
        UserAgentComposer.userAgent
          (UserAgentComposer.appendMcpClientInfo ⟨"2.4.1", none⟩ (some ("agent-x", "0.1"))) ∧
      (UserAgentComposer.userAgent ⟨"2.4.1", none⟩ ≠
          UserAgentComposer.userAgent
            (UserAgentComposer.appendMcpClientInfo ⟨"2.4.1", none⟩ (some ("agent-x", "0.1"))) →
        c₁.options.userAgent ≠ c₂.options.userAgent) :=
  c3_fresh_client_per_call "interactive" "https://dev.azure.com/contoso" "2.4.1"
    (fun n => Except.ok (Nat.repr n, n + 1)) 0 1 2 "0" "1"
    ⟨"2.4.1", none⟩ (UserAgentComposer.appendMcpClientInfo ⟨"2.4.1", none⟩ (some ("agent-x", "0.1")))
    rfl rfl

/-- C4: a requested domain list containing an unrecognized name makes resolution
fail with `UnknownDomain` naming an offending value — no partial enabled set is
produced — and startup aborts before registration. -/
theorem c4_unknown_domain_fatal (getOrgTenant : String → Option String) (argv : Argv)
    (d : String) (hd : d ∈ argv.domains) (hk : isKnownRequest d = false) :
    ∃ bad, bad ∈ argv.domains ∧ isKnownRequest bad = false ∧
      DomainsManager.resolve argv.domains =
        Except.error (DomainsError.UnknownDomain bad) ∧
      startup getOrgTenant argv =
        Except.error (StartupError.domainsError (DomainsError.UnknownDomain bad)) := by
  have hsome : (argv.domains.find? (fun x => !(isKnownRequest x))).isSome := by
    rw [List.find?_isSome]
    exact ⟨d, hd, by simp [hk]⟩
  obtain ⟨bad, hbad⟩ := Option.isSome_iff_exists.mp hsome
  have hmem := List.mem_of_find?_eq_some hbad
  have hkb : isKnownRequest bad = false := by simpa using List.find?_some hbad
  have hres : DomainsManager.resolve argv.domains =
      Except.error (DomainsError.UnknownDomain bad) := by
    unfold DomainsManager.resolve
    rw [hbad]
  refine ⟨bad, hmem, hkb, hres, ?_⟩
  unfold startup
  rw [hres]

/-- C4 witness: the list ["repositories", "bogus"] fails resolution and startup
with an `UnknownDomain` error. -/
theorem c4_unknown_domain_fatal_witness :
    ∃ bad, bad ∈ (["repositories", "bogus"] : List String) ∧
      isKnownRequest bad = false ∧
      DomainsManager.resolve ["repositories", "bogus"] =
        Except.error (DomainsError.UnknownDomain bad) ∧
      startup (fun _ => none)
          ⟨"contoso", ["repositories", "bogus"], "interactive", none, none, none⟩ =
        Except.error (StartupError.domainsError (DomainsError.UnknownDomain bad)) :=
  c4_unknown_domain_fatal (fun _ => none)
    ⟨"contoso", ["repositories", "bogus"], "interactive", none, none, none⟩
    "bogus" (by simp) (by rfl)

/-- C5: a nonempty request consisting only of the exact wildcard token "all"
resolves to the full known-domain registry, and the domains option defaults to
the wildcard when the operator supplies none. -/
theorem c5_wildcard_full_registry (requested : List String) (hne : requested ≠ [])
    (hall : ∀ d ∈ requested, d = "all") :
    DomainsManager.resolve requested = Except.ok KNOWN_DOMAINS ∧
    resolveDomainsOption none = ["all"] := by
  refine ⟨?_, rfl⟩
  unfold DomainsManager.resolve
  have hfind : requested.find? (fun d => !(isKnownRequest d)) = none := by
    rw [List.find?_eq_none]
    intro x hx
    have hx' := hall x hx
    subst hx'
    simp [isKnownRequest]
  rw [hfind]
  have hcontains : requested.contains "all" = true := by
    cases requested with
    | nil => exact absurd rfl hne
    | cons a l =>
      have ha := hall a (by simp)
      subst ha
      simp
  rw [hcontains]
  simp

/-- C5 witness: resolving ["all"] yields the full registry, and the default
domains value is ["all"]. -/
theorem c5_wildcard_full_registry_witness :
    DomainsManager.resolve ["all"] = Except.ok KNOWN_DOMAINS ∧
    resolveDomainsOption none = ["all"] :=
  c5_wildcard_full_registry ["all"] (by simp) (by simp)

/-- Constructing the `pat` authenticator with an absent or empty static
credential fails with `MissingCredential`. -/
theorem createAuthenticator_pat_missing (tenantId : Option String) (cred : Option String)
    (hcred : cred = none ∨ cred = some "") :
    createAuthenticator "pat" tenantId cred = Except.error AuthError.MissingCredential := by
  rcases hcred with rfl | rfl <;> rfl

/-- C6: with strategy "pat" and no (or empty) static credential, authenticator
construction fails with `MissingCredential` — no token provider is ever built,
so no token request can be attempted — and startup never reaches a running,
connected server state. -/
theorem c6_pat_missing_credential (tenant : Option String) (cred : Option String)
    (getOrgTenant : String → Option String) (argv : Argv)
    (hcred : cred = none ∨ cred = some "")
    (hauth : argv.authentication = "pat") (hpat : argv.patToken = cred) :
    createAuthenticator "pat" tenant cred = Except.error AuthError.MissingCredential ∧
    ∀ st : ServerState, startup getOrgTenant argv ≠ Except.ok st := by
  refine ⟨createAuthenticator_pat_missing tenant cred hcred, ?_⟩
  intro st
  unfold startup
  cases hres : DomainsManager.resolve argv.domains with
  | error e => simp
  | ok enabled =>
    simp only [hauth, hpat,
      createAuthenticator_pat_missing _ cred hcred]
    simp

/-- C6 witness: a concrete "pat" configuration without a credential fails
construction and never yields a started server state. -/
theorem c6_pat_missing_credential_witness :
    createAuthenticator "pat" none none = Except.error AuthError.MissingCredential ∧
    ∀ st : ServerState,
      startup (fun _ => none) ⟨"contoso", ["all"], "pat", none, none, none⟩ ≠
        Except.ok st :=
  c6_pat_missing_credential none none (fun _ => none)
    ⟨"contoso", ["all"], "pat", none, none, none⟩ (Or.inl rfl) rfl rfl

/-- C7 counterexample: with an explicit operator-supplied tenant present and the
organization-name lookup also yielding a value, the code resolves to the lookup's
value, not the explicit one — refuting the claimed precedence. -/
theorem c7_tenant_precedence_counterexample :
    resolveTenantId (fun o => if o = "contoso" then some "lookup-tenant" else none)
        "contoso" (some "explicit-tenant") = some "lookup-tenant" ∧
    resolveTenantId (fun o => if o = "contoso" then some "lookup-tenant" else none)
        "contoso" (some "explicit-tenant") ≠ some "explicit-tenant" := by
  constructor
  · rfl
  · intro h
    simp [resolveTenantId] at h

/-- C7 (amended): the TenantId is resolved once at startup, taken from the
lookup keyed by the organization name when that lookup yields a value, or else
from the explicit operator-supplied tenant value; the resolved value is the one
recorded in the started server and carried by the authenticator the factory
builds for the tenant-using strategies. -/
theorem c7_tenant_resolution_amended (getOrgTenant : String → Option String)
    (orgName : String) (argvTenant : Option String) (argv : Argv) (st : ServerState)
    (h : startup getOrgTenant argv = Except.ok st) :
    (∀ t, getOrgTenant orgName = some t →
      resolveTenantId getOrgTenant orgName argvTenant = some t) ∧
    (getOrgTenant orgName = none →
      resolveTenantId getOrgTenant orgName argvTenant = argvTenant) ∧
    st.tenantId = resolveTenantId getOrgTenant argv.organization argv.tenant ∧
    (argv.authentication = "interactive" →
      st.authenticator = TokenProviderSpec.interactiveFlow st.tenantId) ∧
    (argv.authentication = "azcli" →
      st.authenticator = TokenProviderSpec.azcliFlow st.tenantId) := by
  have hfirst : ∀ t, getOrgTenant orgName = some t →
      resolveTenantId getOrgTenant orgName argvTenant = some t := by
    intro t ht
    simp [resolveTenantId, ht]
  have hsecond : getOrgTenant orgName = none →
      resolveTenantId getOrgTenant orgName argvTenant = argvTenant := by
    intro ht
    simp [resolveTenantId, ht]
  unfold startup at h
  cases hres : DomainsManager.resolve argv.domains with
  | error e => rw [hres] at h; exact absurd h (by simp)
  | ok enabled =>
    rw [hres] at h
    simp only at h
    cases hca : createAuthenticator argv.authentication
        (resolveTenantId getOrgTenant argv.organization argv.tenant) argv.patToken with
    | error e => rw [hca] at h; exact absurd h (by simp)
    | ok auth =>
      rw [hca] at h
      simp only [Except.ok.injEq] at h
      subst h
      refine ⟨hfirst, hsecond, rfl, ?_, ?_⟩
      · intro ha
        rw [ha] at hca
        have hi : createAuthenticator "interactive"
            (resolveTenantId getOrgTenant argv.organization argv.tenant) argv.patToken =
            Except.ok (TokenProviderSpec.interactiveFlow
              (resolveTenantId getOrgTenant argv.organization argv.tenant)) := rfl
        rw [hi] at hca
        simp only [Except.ok.injEq] at hca
        exact hca.symm
      · intro ha
        rw [ha] at hca
        have hi : createAuthenticator "azcli"
            (resolveTenantId getOrgTenant argv.organization argv.tenant) argv.patToken =
            Except.ok (TokenProviderSpec.azcliFlow
              (resolveTenantId getOrgTenant argv.organization argv.tenant)) := rfl
        rw [hi] at hca
        simp only [Except.ok.injEq] at hca
        exact hca.symm

/-- C7 witness: a concrete interactive startup with no lookup hit records the
explicit tenant and hands it to the authenticator. -/
theorem c7_tenant_resolution_amended_witness :
    (∀ t, (fun (_ : String) => (none : Option String)) "contoso" = some t →
      resolveTenantId (fun _ => none) "contoso" (some "t-42") = some t) ∧
    ((fun (_ : String) => (none : Option String)) "contoso" = none →
      resolveTenantId (fun _ => none) "contoso" (some "t-42") = some "t-42") ∧
    (ServerState.mk "https://dev.azure.com/contoso" ["repositories"] (some "t-42")
        (TokenProviderSpec.interactiveFlow (some "t-42")) ["repositories"] true).tenantId =
      resolveTenantId (fun _ => none) "contoso" (some "t-42") ∧
    ("interactive" = "interactive" →
      (ServerState.mk "https://dev.azure.com/contoso" ["repositories"] (some "t-42")
          (TokenProviderSpec.interactiveFlow (some "t-42")) ["repositories"] true).authenticator =
        TokenProviderSpec.interactiveFlow
          (ServerState.mk "https://dev.azure.com/contoso" ["repositories"] (some "t-42")
            (TokenProviderSpec.interactiveFlow (some "t-42")) ["repositories"] true).tenantId) ∧
    ("interactive" = "azcli" →
      (ServerState.mk "https://dev.azure.com/contoso" ["repositories"] (some "t-42")
          (TokenProviderSpec.interactiveFlow (some "t-42")) ["repositories"] true).authenticator =
        TokenProviderSpec.azcliFlow
          (ServerState.mk "https://dev.azure.com/contoso" ["repositories"] (some "t-42")
            (TokenProviderSpec.interactiveFlow (some "t-42")) ["repositories"] true).tenantId) :=
  c7_tenant_resolution_amended (fun _ => none) "contoso" (some "t-42")
    ⟨"contoso", ["repositories"], "interactive", some "t-42", none, none⟩
    (ServerState.mk "https://dev.azure.com/contoso" ["repositories"] (some "t-42")
      (TokenProviderSpec.interactiveFlow (some "t-42")) ["repositories"] true)
    (by rfl)

/-- C8: with no operator-supplied server URL the organization base URL is the
fixed template "https://dev.azure.com/" followed by the organization name; a
supplied URL is used verbatim; and every client the factory constructs is bound
to that resolved URL. -/
theorem c8_org_url {σ ε : Type} (org u strategy url packageVersion : String)
    (getOrgTenant : String → Option String) (argv : Argv) (st : ServerState)
    (p : σ → Except ε (String × σ)) (s s' : σ) (uac : UserAgentComposer) (c : WebApi)
    (hclient : getAzureDevOpsClient strategy url packageVersion p s uac = Except.ok (c, s'))
    (hstart : startup getOrgTenant argv = Except.ok st) :
    orgUrl none org = "https://dev.azure.com/" ++ org ∧
    orgUrl (some u) org = u ∧
    c.serverUrl = url ∧
    st.organizationUrl = orgUrl argv.serverUrl argv.organization := by
  refine ⟨rfl, rfl, (getAzureDevOpsClient_ok_inv _ _ _ p s s' uac c hclient).1, ?_⟩
  unfold startup at hstart
  cases hres : DomainsManager.resolve argv.domains with
  | error e => rw [hres] at hstart; exact absurd hstart (by simp)
  | ok enabled =>
    rw [hres] at hstart
    simp only at hstart
    cases hca : createAuthenticator argv.authentication
        (resolveTenantId getOrgTenant argv.organization argv.tenant) argv.patToken with
    | error e => rw [hca] at hstart; exact absurd hstart (by simp)
    | ok auth =>
      rw [hca] at hstart
      simp only [Except.ok.injEq] at hstart
      subst hstart
      rfl

/-- C8 witness: a concrete default URL, a concrete verbatim URL, a concrete
client bound to its URL, and a concrete startup recording the resolved URL. -/
theorem c8_org_url_witness :
    orgUrl none "contoso" = "https://dev.azure.com/" ++ "contoso" ∧
    orgUrl (some "https://my-server.example/tfs") "contoso" =
      "https://my-server.example/tfs" ∧
    (WebApi.mk "https://dev.azure.com/contoso"
        (AuthHandler.bearer "tok")
        (RequestOptions.mk "AzureDevOps.MCP" "2.4.1"
          (UserAgentComposer.userAgent ⟨"2.4.1", none⟩))).serverUrl =
      "https://dev.azure.com/contoso" ∧
    (ServerState.mk "https://dev.azure.com/contoso" ["repositories"] (some "t-42")
        (TokenProviderSpec.interactiveFlow (some "t-42")) ["repositories"] true).organizationUrl =
      orgUrl none "contoso" :=
  c8_org_url "contoso" "https://my-server.example/tfs" "interactive"
    "https://dev.azure.com/contoso" "2.4.1" (fun _ => none)
    ⟨"contoso", ["repositories"], "interactive", some "t-42", none, none⟩
    (ServerState.mk "https://dev.azure.com/contoso" ["repositories"] (some "t-42")
      (TokenProviderSpec.interactiveFlow (some "t-42")) ["repositories"] true)
    (fun (_ : Unit) => (Except.ok ("tok", ()) : Except String (String × Unit))) () ()
    ⟨"2.4.1", none⟩
    (WebApi.mk "https://dev.azure.com/contoso" (AuthHandler.bearer "tok")
      (RequestOptions.mk "AzureDevOps.MCP" "2.4.1"
        (UserAgentComposer.userAgent ⟨"2.4.1", none⟩)))
    (by rfl) (by rfl)

/-- Codespace detection holds exactly when CODESPACES is "true" and
CODESPACE_NAME is present and non-empty. -/
theorem isGitHubCodespaceEnv_iff (codespaces codespaceName : Option String) :
    isGitHubCodespaceEnv codespaces codespaceName = true ↔
      (codespaces = some "true" ∧ codespaceName ≠ none ∧ codespaceName ≠ some "") := by
  cases codespaceName with
  | none => simp [isGitHubCodespaceEnv]
  | some a => simp [isGitHubCodespaceEnv]

/-- C9: the default authentication strategy is "azcli" exactly in a GitHub
Codespace environment (CODESPACES equals "true" and CODESPACE_NAME non-empty)
and "interactive" otherwise; an absent CLI value resolves to that default, and a
supplied value is accepted exactly when it is one of the five enumerated
strategy names. -/
theorem c9_default_strategy (codespaces codespaceName : Option String) (s d : String) :
    (defaultAuthenticationType codespaces codespaceName = "azcli" ↔
      (codespaces = some "true" ∧ codespaceName ≠ none ∧ codespaceName ≠ some "")) ∧
    (defaultAuthenticationType codespaces codespaceName = "azcli" ∨
      defaultAuthenticationType codespaces codespaceName = "interactive") ∧
    resolveAuthenticationOption none (defaultAuthenticationType codespaces codespaceName) =
      Except.ok (defaultAuthenticationType codespaces codespaceName) ∧
    (s ∈ authenticationChoices →
      resolveAuthenticationOption (some s) d = Except.ok s) ∧
    (s ∉ authenticationChoices →
      resolveAuthenticationOption (some s) d =
        Except.error (ConfigError.invalidChoice s)) := by
  refine ⟨?_, ?_, rfl, ?_, ?_⟩
  · unfold defaultAuthenticationType
    cases hb : isGitHubCodespaceEnv codespaces codespaceName with
    | true =>
      simp only [if_pos rfl]
      simpa using (isGitHubCodespaceEnv_iff codespaces codespaceName).mp hb
    | false =>
      rw [if_neg (by simp [hb])]
      constructor
      · intro hx
        exact absurd hx (by decide)
      · intro hc
        exact absurd ((isGitHubCodespaceEnv_iff codespaces codespaceName).mpr hc)
          (by simp [hb])
  · unfold defaultAuthenticationType
    split
    · exact Or.inl rfl
    · exact Or.inr rfl
  · intro hs
    simp [resolveAuthenticationOption, List.contains, hs]
  · intro hs
    simp [resolveAuthenticationOption, List.contains, hs]

/-- C9 witness: a concrete Codespace environment defaults to "azcli", a plain
environment defaults to "interactive", an enumerated override is accepted and a
non-enumerated one is rejected. -/
theorem c9_default_strategy_witness :
    defaultAuthenticationType (some "true") (some "my-codespace") = "azcli" ∧
    (defaultAuthenticationType none none = "azcli" ∨
      defaultAuthenticationType none none = "interactive") ∧
    resolveAuthenticationOption (some "pat") "interactive" = Except.ok "pat" ∧
    resolveAuthenticationOption (some "oauth") "interactive" =
      Except.error (ConfigError.invalidChoice "oauth") :=
  ⟨(c9_default_strategy (some "true") (some "my-codespace") "pat" "interactive").1.mpr
      (by decide),
   (c9_default_strategy none none "pat" "interactive").2.1,
   (c9_default_strategy none none "pat" "interactive").2.2.2.1 (by decide),
   (c9_default_strategy none none "oauth" "interactive").2.2.2.2 (by decide)⟩

/-- C10: every client the factory constructs carries the constant product
descriptor — productName "AzureDevOps.MCP" and productVersion equal to the
package version fixed at startup — regardless of strategy, token or invocation;
two clients from the same startup can differ in their options only through the
userAgent field. -/
theorem c10_product_descriptor {σ ε σ₂ ε₂ : Type}
    (strategy url strategy₂ url₂ packageVersion : String)
    (p : σ → Except ε (String × σ)) (s s' : σ) (uac : UserAgentComposer) (c : WebApi)
    (p₂ : σ₂ → Except ε₂ (String × σ₂)) (s₂ s₂' : σ₂) (uac₂ : UserAgentComposer) (c₂ : WebApi)
    (h : getAzureDevOpsClient strategy url packageVersion p s uac = Except.ok (c, s'))
    (h₂ : getAzureDevOpsClient strategy₂ url₂ packageVersion p₂ s₂ uac₂ = Except.ok (c₂, s₂')) :
    c.options.productName = "AzureDevOps.MCP" ∧
    c.options.productVersion = packageVersion ∧
    c₂.options.productName = c.options.productName ∧
    c₂.options.productVersion = c.options.productVersion ∧
    (c.options.userAgent = c₂.options.userAgent → c.options = c₂.options) := by
  obtain ⟨-, hopt, -⟩ := getAzureDevOpsClient_ok_inv _ _ _ p s s' uac c h
  obtain ⟨-, hopt₂, -⟩ := getAzureDevOpsClient_ok_inv _ _ _ p₂ s₂ s₂' uac₂ c₂ h₂
  rw [hopt, hopt₂]
  refine ⟨rfl, rfl, rfl, rfl, ?_⟩
  intro hua
  have hua' : uac.userAgent = uac₂.userAgent := hua
  rw [hua']

/-- C10 witness: a concrete "pat" client and a concrete "azcli" client from the
same package version share the constant product descriptor fields. -/
theorem c10_product_descriptor_witness :
    (WebApi.mk "https://dev.azure.com/contoso"
        (AuthHandler.personalAccessToken "tok")
        (RequestOptions.mk "AzureDevOps.MCP" "2.4.1"
          (UserAgentComposer.userAgent ⟨"2.4.1", none⟩))).options.productName =
      "AzureDevOps.MCP" ∧
    (WebApi.mk "https://dev.azure.com/contoso"
        (AuthHandler.personalAccessToken "tok")
        (RequestOptions.mk "AzureDevOps.MCP" "2.4.1"
          (UserAgentComposer.userAgent ⟨"2.4.1", none⟩))).options.productVersion = "2.4.1" ∧
    (WebApi.mk "https://other.example/org"
        (AuthHandler.bearer "tok2")
        (RequestOptions.mk "AzureDevOps.MCP" "2.4.1"
          (UserAgentComposer.userAgent ⟨"2.4.1", none⟩))).options.productName =
      (WebApi.mk "https://dev.azure.com/contoso"
        (AuthHandler.personalAccessToken "tok")
        (RequestOptions.mk "AzureDevOps.MCP" "2.4.1"
          (UserAgentComposer.userAgent ⟨"2.4.1", none⟩))).options.productName ∧
    (WebApi.mk "https://other.example/org"
        (AuthHandler.bearer "tok2")
        (RequestOptions.mk "AzureDevOps.MCP" "2.4.1"
          (UserAgentComposer.userAgent ⟨"2.4.1", none⟩))).options.productVersion =
      (WebApi.mk "https://dev.azure.com/contoso"
        (AuthHandler.personalAccessToken "tok")
        (RequestOptions.mk "AzureDevOps.MCP" "2.4.1"
          (UserAgentComposer.userAgent ⟨"2.4.1", none⟩))).options.productVersion ∧
    ((WebApi.mk "https://dev.azure.com/contoso"
        (AuthHandler.personalAccessToken "tok")
        (RequestOptions.mk "AzureDevOps.MCP" "2.4.1"
          (UserAgentComposer.userAgent ⟨"2.4.1", none⟩))).options.userAgent =
      (WebApi.mk "https://other.example/org"
        (AuthHandler.bearer "tok2")
        (RequestOptions.mk "AzureDevOps.MCP" "2.4.1"
          (UserAgentComposer.userAgent ⟨"2.4.1", none⟩))).options.userAgent →
      (WebApi.mk "https://dev.azure.com/contoso"
        (AuthHandler.personalAccessToken "tok")
        (RequestOptions.mk "AzureDevOps.MCP" "2.4.1"
          (UserAgentComposer.userAgent ⟨"2.4.1", none⟩))).options =
      (WebApi.mk "https://other.example/org"
        (AuthHandler.bearer "tok2")
        (RequestOptions.mk "AzureDevOps.MCP" "2.4.1"
          (UserAgentComposer.userAgent ⟨"2.4.1", none⟩))).options) :=
  c10_product_descriptor "pat" "https://dev.azure.com/contoso"
    "azcli" "https://other.example/org" "2.4.1"
    (fun (_ : Unit) => (Except.ok ("tok", ()) : Except String (String × Unit))) () ()
    ⟨"2.4.1", none⟩
    (WebApi.mk "https://dev.azure.com/contoso" (AuthHandler.personalAccessToken "tok")
      (RequestOptions.mk "AzureDevOps.MCP" "2.4.1"
        (UserAgentComposer.userAgent ⟨"2.4.1", none⟩)))
    (fun (_ : Unit) => (Except.ok ("tok2", ()) : Except String (String × Unit))) () ()
    ⟨"2.4.1", none⟩
    (WebApi.mk "https://other.example/org" (AuthHandler.bearer "tok2")
      (RequestOptions.mk "AzureDevOps.MCP" "2.4.1"
        (UserAgentComposer.userAgent ⟨"2.4.1", none⟩)))
    (by rfl) (by rfl)

end AzureDevOpsMcp
